import Mathlib

/- Formal model of the Olist multi-agent query backend (app_updated.py):
   the data access layer, the category translation lookup, the three query
   agents, and the keyword-routing orchestrator.  Machine floats of the
   source are modelled as exact rationals; SQL queries are modelled by
   their relational semantics over explicit table rows. -/

/-! ## String utilities (Python string primitives used by the source) -/

/-- Characters treated as whitespace by trimming; models Python str.strip
on the whitespace characters that can occur in this app's data. -/
def isWsChar (c : Char) : Bool := c = ' ' || c = '\t' || c = '\n' || c = '\r'

/-- Python str.strip: drop leading and trailing whitespace characters. -/
def pyStrip (l : List Char) : List Char :=
  ((l.dropWhile isWsChar).reverse.dropWhile isWsChar).reverse

/-- Uppercase/lowercase pairs: the ASCII letters plus the accented letters
occurring in the source's routing keywords.  Models Python str.lower
restricted to the characters relevant to the source. -/
def upperLowerPairs : List (Char × Char) :=
  [('A','a'),('B','b'),('C','c'),('D','d'),('E','e'),('F','f'),('G','g'),
   ('H','h'),('I','i'),('J','j'),('K','k'),('L','l'),('M','m'),('N','n'),
   ('O','o'),('P','p'),('Q','q'),('R','r'),('S','s'),('T','t'),('U','u'),
   ('V','v'),('W','w'),('X','x'),('Y','y'),('Z','z'),('Ã','ã'),('É','é')]

/-- Lowercase one character (model of Python str.lower, per character). -/
def pyLowerChar (c : Char) : Char :=
  match upperLowerPairs.find? (fun p => p.1 == c) with
  | some p => p.2
  | none => c

/-- Python s.lower(). -/
def pyLower (s : String) : String := ⟨s.data.map pyLowerChar⟩

/-- Python replace of the 1-character needle " " by "_" acts per character. -/
def underscoreChar (c : Char) : Char := if c = ' ' then '_' else c

/-- normalize_category from the source: cat.strip().lower().replace(" ", "_"). -/
def normalize_category (cat : String) : String :=
  ⟨((pyStrip cat.data).map pyLowerChar).map underscoreChar⟩

/-- Bool test: pat is a prefix of the character list l. -/
def charListPre : List Char → List Char → Bool
  | [], _ => true
  | _ :: _, [] => false
  | a :: as, b :: bs => a == b && charListPre as bs

/-- Bool test: pat occurs as a contiguous run inside l (Python `in`). -/
def charListSub (pat : List Char) : List Char → Bool
  | [] => charListPre pat []
  | b :: bs => charListPre pat (b :: bs) || charListSub pat bs

/-- Python `pat in s` on strings. -/
def containsStr (s pat : String) : Bool := charListSub pat.data s.data

/-- Python s.startswith(pat). -/
def strStartsWith (s pat : String) : Bool := charListPre pat.data s.data

/-- Lexicographic code-point comparison of character lists; this is the
order Python's sorted() uses on str values. -/
def charListLeB : List Char → List Char → Bool
  | [], _ => true
  | _ :: _, [] => false
  | a :: as, b :: bs => if a < b then true else if b < a then false else charListLeB as bs

/-- Python s ≤ t on strings (code-point lexicographic). -/
def strLeB (s t : String) : Bool := charListLeB s.data t.data

/-- The ≤ relation on strings used by sorted(). -/
def strLeRel (a b : String) : Prop := strLeB a b = true

instance : DecidableRel strLeRel := fun a b => by unfold strLeRel; infer_instance

/-- Python dict assignment d[k] = v: overwrite the value in place when the
key exists, otherwise append the pair (insertion order preserved). -/
def dictInsert (d : List (String × String)) (k v : String) : List (String × String) :=
  match d with
  | [] => [(k, v)]
  | (k1, v1) :: rest => if k1 == k then (k, v) :: rest else (k1, v1) :: dictInsert rest k v

/-- Python dict comprehension over a list of key-value pairs: processed
left to right, later occurrences of a key overwrite earlier values. -/
def pyDict (rows : List (String × String)) : List (String × String) :=
  rows.foldl (fun d r => dictInsert d r.1 r.2) []

/-! ## Data model: the external SQLite schema as row lists -/

/-- One row of the category_translation table. -/
structure TranslationRow where
  product_category_name : String
  product_category_name_english : String
deriving DecidableEq

/-- One row of the products table. -/
structure ProductRow where
  product_id : String
  product_category_name : Option String
deriving DecidableEq

/-- One row of the items table (price may be NULL). -/
structure ItemRow where
  order_id : String
  product_id : String
  seller_id : String
  price : Option ℚ
deriving DecidableEq

/-- One row of the orders table. -/
structure OrderRow where
  order_id : String
deriving DecidableEq

/-- One row of the sellers table. -/
structure SellerRow where
  seller_id : String
  seller_city : String
deriving DecidableEq

/-- One row of the reviews table. -/
structure ReviewRow where
  order_id : String
  review_score : Int
deriving DecidableEq

/-- The relational store as seen by the app, plus a reachability flag:
when `ok` is false, executing any query raises inside the data access
layer (missing store file / disconnection), which fetch_all converts to
an empty result. -/
structure DB where
  ok : Bool
  category_translation : List TranslationRow
  products : List ProductRow
  items : List ItemRow
  orders : List OrderRow
  sellers : List SellerRow
  reviews : List ReviewRow
deriving DecidableEq

/-! ## Data access layer -/

/-- Outcome of executing one SQL query against the store: either an
exception escaping the cursor (missing store, malformed SQL,
disconnection) or the result rows, in the store's order. -/
inductive QueryOutcome (α : Type) where
  | failure (msg : String)
  | success (rows : List α)
deriving DecidableEq

/-- fetch_all: returns the result rows; any execution failure is caught,
logged and converted to the empty list, so no exception ever reaches the
caller (the function is total). -/
def fetch_all {α : Type} : QueryOutcome α → List α
  | .failure _ => []
  | .success rows => rows

/-- fetch_one: the first row of fetch_all, if any. -/
def fetch_one {α : Type} (o : QueryOutcome α) : Option α :=
  match fetch_all o with
  | [] => none
  | r :: _ => some r

/-- Executing on store `db` a query whose relational semantics yields
`rows`: get_connection raises when the store is unreachable. -/
def dbOutcome {α : Type} (db : DB) (rows : List α) : QueryOutcome α :=
  if db.ok then .success rows else .failure "Database not available in this environment."

/-- fetch_all of a query with semantics `rows` against `db`. -/
def dbFetchAll {α : Type} (db : DB) (rows : List α) : List α := fetch_all (dbOutcome db rows)

/-- fetch_one of a query with semantics `rows` against `db`. -/
def dbFetchOne {α : Type} (db : DB) (rows : List α) : Option α := fetch_one (dbOutcome db rows)

/-! ## Category translation lookup -/

/-- get_category_translation_map: one dict entry per translation row,
keyed by the normalized English label, valued by the native label. -/
def get_category_translation_map (db : DB) : List (String × String) :=
  pyDict ((dbFetchAll db db.category_translation).map fun r =>
    (normalize_category r.product_category_name_english, r.product_category_name))

/-! ## SQL agent -/

/-- SQL AVG over the listed values: NULL exactly when there is no value. -/
def sqlAvg (l : List ℚ) : Option ℚ :=
  if l.isEmpty then none else some (l.sum / l.length)

/-- The i.price values selected by the average-price query: rows of
items JOIN products ON product_id with product_category_name = category
and price IS NOT NULL. -/
def avgPricePrices (db : DB) (category : String) : List ℚ :=
  db.items.flatMap fun i =>
    db.products.flatMap fun p =>
      if p.product_id = i.product_id ∧ p.product_category_name = some category then
        i.price.toList
      else []

/-- A result row of the seller-performance query. -/
structure SellerPerf where
  seller_city : String
  total_orders : Nat
  avg_review : Option ℚ
deriving DecidableEq

/-- Rows of sellers ⋈ items ⋈ orders (reviews LEFT-joined) restricted to
LOWER(seller_city) = LOWER(city), before grouping: the pair of the
seller_city value and the optional review score.  SQLite's LOWER is
ASCII-only; the cities this app queries are ASCII, so one lowercase model
serves both. -/
def sellerJoinRows (db : DB) (city : String) : List (String × Option Int) :=
  db.sellers.flatMap fun s =>
    if pyLower s.seller_city = pyLower city then
      db.items.flatMap fun i =>
        if i.seller_id = s.seller_id then
          db.orders.flatMap fun o =>
            if o.order_id = i.order_id then
              match db.reviews.filter (fun r => r.order_id == o.order_id) with
              | [] => [(s.seller_city, none)]
              | r :: rs => (r :: rs).map fun rr => (s.seller_city, some rr.review_score)
            else []
        else []
    else []

/-- GROUP BY seller_city on the join rows: COUNT(o.order_id) counts the
rows of the group, AVG(r.review_score) averages the non-NULL scores.
SQLite leaves the order of group rows unspecified; the model lists groups
in `List.dedup` order of their keys. -/
def groupedSellerRows (db : DB) (city : String) : List SellerPerf :=
  let rows := sellerJoinRows db city
  ((rows.map Prod.fst).dedup).map fun c =>
    let vals := rows.filterMap fun x => if x.1 = c then some x.2 else none
    ⟨c, vals.length, sqlAvg (vals.filterMap fun v => v.map fun n => (n : ℚ))⟩

namespace SQLAgent

/-- average_price_by_category: the aggregate query yields exactly one row
whose avg_price is NULL when no item matches; the source then applies the
Python truthiness test `row["avg_price"] if row and row["avg_price"] else
None`, so a zero average is also mapped to None. -/
def average_price_by_category (db : DB) (category : String) : Option ℚ :=
  match dbFetchOne db [sqlAvg (avgPricePrices db category)] with
  | none => none
  | some avg =>
    match avg with
    | none => none
    | some a => if a = 0 then none else some a

/-- The literal fallback list returned when no category row is available. -/
def fallbackCategories : List String :=
  ["furniture", "electronics", "auto", "toys", "fashion", "sports",
   "home_appliances", "books", "health_beauty"]

/-- list_categories: SELECT DISTINCT non-NULL category labels, then
Python sorted(set(...)); the literal fallback replaces an empty result. -/
def list_categories (db : DB) : List String :=
  let rows := dbFetchAll db (db.products.filterMap fun p => p.product_category_name)
  let categories := List.insertionSort strLeRel rows.dedup
  if categories.isEmpty then fallbackCategories else categories

/-- seller_performance: fetch_one on the grouped seller query. -/
def seller_performance (db : DB) (city : String) : Option SellerPerf :=
  dbFetchOne db (groupedSellerRows db city)

end SQLAgent

/-! ## RAG agent -/

/-- A result row of the most-positive-reviewed-product query. -/
structure PosReview where
  product_id : String
  review_count : Nat
  avg_score : ℚ
deriving DecidableEq

/-- (product_id, review_score) rows of products ⋈ items ⋈ reviews with
review_score ≥ 4. -/
def posReviewRows (db : DB) : List (String × Int) :=
  db.products.flatMap fun p =>
    db.items.flatMap fun i =>
      db.reviews.flatMap fun r =>
        if p.product_id = i.product_id ∧ i.order_id = r.order_id ∧ 4 ≤ r.review_score then
          [(p.product_id, r.review_score)]
        else []

/-- GROUP BY product_id over the positive-review rows (group keys in
`List.dedup` order; every group is non-empty). -/
def groupPosReviews (db : DB) : List PosReview :=
  let rows := posReviewRows db
  ((rows.map Prod.fst).dedup).map fun pid =>
    let scores := rows.filterMap fun x => if x.1 = pid then some x.2 else none
    ⟨pid, scores.length, (scores.map fun n => (n : ℚ)).sum / scores.length⟩

/-- ORDER BY review_count DESC comparison. -/
def posRel (a b : PosReview) : Prop := b.review_count ≤ a.review_count

instance : DecidableRel posRel := fun a b => by unfold posRel; infer_instance

namespace RAGAgent

/-- most_positive_reviewed_product: ORDER BY review_count DESC LIMIT 1,
then fetch_one.  Ties are broken arbitrarily by the store; the model
uses a stable sort of the grouped rows. -/
def most_positive_reviewed_product (db : DB) : Option PosReview :=
  dbFetchOne db (List.take 1 (List.insertionSort posRel (groupPosReviews db)))

end RAGAgent

/-! ## Recommendation agent -/

/-- A result row of the best-products query. -/
structure ProductScore where
  product_id : String
  total_reviews : Nat
  avg_score : ℚ
deriving DecidableEq

/-- (product_id, review_score) rows of products ⋈ items ⋈ reviews. -/
def reviewRows (db : DB) : List (String × Int) :=
  db.products.flatMap fun p =>
    db.items.flatMap fun i =>
      db.reviews.flatMap fun r =>
        if p.product_id = i.product_id ∧ i.order_id = r.order_id then
          [(p.product_id, r.review_score)]
        else []

/-- GROUP BY product_id with COUNT(review_score) and AVG(review_score)
(group keys in `List.dedup` order; every group is non-empty). -/
def groupScores (db : DB) : List ProductScore :=
  let rows := reviewRows db
  ((rows.map Prod.fst).dedup).map fun pid =>
    let scores := rows.filterMap fun x => if x.1 = pid then some x.2 else none
    ⟨pid, scores.length, (scores.map fun n => (n : ℚ)).sum / scores.length⟩

/-- ORDER BY avg_score DESC, total_reviews DESC comparison: a comes no
later than b when a's average is larger, or the averages tie and a's
review count is at least b's. -/
def bpRel (a b : ProductScore) : Prop :=
  b.avg_score < a.avg_score ∨ (a.avg_score = b.avg_score ∧ b.total_reviews ≤ a.total_reviews)

instance : DecidableRel bpRel := fun a b => by unfold bpRel; infer_instance

namespace RecommendationAgent

/-- best_products: HAVING avg_score ≥ 4, ORDER BY avg_score DESC,
total_reviews DESC, LIMIT `limit` (the source's default limit is 5). -/
def best_products (db : DB) (limit : Nat) : List ProductScore :=
  dbFetchAll db (List.take limit
    (List.insertionSort bpRel ((groupScores db).filter fun g => decide (4 ≤ g.avg_score))))

end RecommendationAgent

/-! ## Answer formatting -/

/-- Two-decimal rendering of a number, modelling Python "{:.2f}". -/
def format2dp (x : ℚ) : String :=
  let c : Int := round (x * 100)
  toString (c / 100) ++ "." ++
    (if (c % 100).natAbs < 10 then "0" else "") ++ toString (c % 100).natAbs

/-- Rendering of an exact rational standing in for a Python float repr.
No claim relies on the exact text of this rendering. -/
def qRepr (x : ℚ) : String := toString x.num ++ "/" ++ toString x.den

/-- Rendering of a nullable score. -/
def optQRepr : Option ℚ → String
  | none => "None"
  | some x => qRepr x

/-- Model of the Python dict rendering interpolated by the seller answer
f-string.  No claim relies on the exact text of this rendering. -/
def sellerRepr (r : SellerPerf) : String :=
  "seller_city=" ++ r.seller_city ++ ", total_orders=" ++ toString r.total_orders ++
    ", avg_review=" ++ optQRepr r.avg_review

/-- One bullet line of the recommendation answer. -/
def recLine (r : ProductScore) : String :=
  r.product_id ++ " (rating " ++ format2dp r.avg_score ++ ", " ++
    toString r.total_reviews ++ " review)"

/-! ## Orchestrator -/

/-- The store interactions the orchestrator can issue, in issue order. -/
inductive AgentCall where
  | translationMap
  | listCategories
  | avgPrice (category : String)
  | sellerPerf (city : String)
  | mostPositive
  | bestProducts (limit : Nat)
deriving DecidableEq

/-- Recommendation rule and the final default (the last two source ifs):
reached only when every earlier rule fell through. -/
def recStep (db : DB) (q : String) (acc : List AgentCall) : String × List AgentCall :=
  if containsStr q "produk terbaik" || containsStr q "produk paling bagus" then
    let recs := RecommendationAgent.best_products db 5
    let acc2 := acc ++ [AgentCall.bestProducts 5]
    if recs.isEmpty then
      ("Belum cukup data untuk rekomendasi produk.", acc2)
    else
      ("Rekomendasi produk terbaik:\n- " ++ String.intercalate "\n- " (recs.map recLine), acc2)
  else
    ("Pertanyaan belum didukung oleh sistem.", acc)

/-- RAG rule (most positively reviewed product). -/
def ragStep (db : DB) (q : String) (acc : List AgentCall) : String × List AgentCall :=
  if containsStr q "paling sering direview positif" then
    let res := RAGAgent.most_positive_reviewed_product db
    let acc2 := acc ++ [AgentCall.mostPositive]
    match res with
    | none => ("Tidak ditemukan produk dengan review positif.", acc2)
    | some r =>
      ("Produk dengan review positif terbanyak adalah " ++ r.product_id ++ " dengan " ++
        toString r.review_count ++ " review positif.", acc2)
  else recStep db q acc

/-- Seller-performance rule: São Paulo is checked before Rio; when the
rule's keyword matches but neither city does, control falls to the RAG
rule. -/
def sellerStep (db : DB) (q : String) (acc : List AgentCall) : String × List AgentCall :=
  if containsStr q "performa seller" || containsStr q "bandingkan seller" then
    if containsStr q "sao paulo" || containsStr q "são paulo" then
      let res := SQLAgent.seller_performance db "sao paulo"
      let acc2 := acc ++ [AgentCall.sellerPerf "sao paulo"]
      match res with
      | some r => ("Seller São Paulo: " ++ sellerRepr r, acc2)
      | none => ("Data São Paulo tidak ditemukan.", acc2)
    else if containsStr q "rio" then
      let res := SQLAgent.seller_performance db "rio de janeiro"
      let acc2 := acc ++ [AgentCall.sellerPerf "rio de janeiro"]
      match res with
      | some r => ("Seller Rio de Janeiro: " ++ sellerRepr r, acc2)
      | none => ("Data Rio tidak ditemukan.", acc2)
    else ragStep db q acc
  else ragStep db q acc

/-- Average-price rule: builds the translation map and answers with the
first (in dict iteration order) English label occurring in the question;
when no label matches, control falls through to the seller rule. -/
def avgStep (db : DB) (q : String) (acc : List AgentCall) : String × List AgentCall :=
  if containsStr q "harga rata rata" || containsStr q "rata-rata harga" then
    let trans := get_category_translation_map db
    let acc2 := acc ++ [AgentCall.translationMap]
    match trans.find? (fun kv => containsStr q kv.1) with
    | some kv =>
      let avg := SQLAgent.average_price_by_category db kv.2
      let acc3 := acc2 ++ [AgentCall.avgPrice kv.2]
      match avg with
      | none => ("Tidak ditemukan harga valid untuk kategori " ++ kv.1 ++ ".", acc3)
      | some a =>
        ("Rata-rata harga produk kategori " ++ kv.1 ++ " adalah " ++ format2dp a ++ ".", acc3)
    | none => sellerStep db q acc2
  else sellerStep db q acc

/-- The full routing chain on the lowercased question. -/
def runQ (db : DB) (q : String) : String × List AgentCall :=
  if containsStr q "kategori apa" then
    let cats := SQLAgent.list_categories db
    if cats.isEmpty then
      ("Kategori tersedia namun data detail tidak dimuat pada environment cloud.",
        [AgentCall.listCategories])
    else
      ("Kategori yang tersedia:\n- " ++ String.intercalate "\n- " cats,
        [AgentCall.listCategories])
  else avgStep db q []

namespace Orchestrator

/-- Orchestrator.run, instrumented with the list of issued store calls. -/
def run_traced (db : DB) (question : String) : String × List AgentCall :=
  runQ db (pyLower question)

/-- Orchestrator.run: the answer string. -/
def run (db : DB) (question : String) : String :=
  (run_traced db question).1

end Orchestrator

/-! ## Claim-support predicates and concrete stores -/

/-- The two São Paulo seller answers the source can produce; formalizes
"the answer concerns São Paulo only". -/
def isSaoPauloAnswerB (s : String) : Bool :=
  strStartsWith s "Seller São Paulo: " || s == "Data São Paulo tidak ditemukan."

/-- One-character version of the differences the normalization claim
allows between two labels: same letter up to case, or a space/underscore
interchange. -/
def charEquivB (c d : Char) : Bool :=
  pyLowerChar c == pyLowerChar d || (c == ' ' && d == '_') || (c == '_' && d == ' ')

/-- Pointwise charEquivB on two character lists of equal length. -/
def coreEquivB : List Char → List Char → Bool
  | [], [] => true
  | a :: as, b :: bs => charEquivB a b && coreEquivB as bs
  | _, _ => false

/-- A reachable store with representative rows. -/
def dbSample : DB := ⟨true,
  [⟨"moveis", "furniture"⟩],
  [⟨"p1", some "moveis"⟩],
  [⟨"o1", "p1", "s1", some 10⟩, ⟨"o2", "p1", "s1", none⟩, ⟨"o3", "p1", "s1", some 20⟩],
  [⟨"o1"⟩, ⟨"o2"⟩, ⟨"o3"⟩],
  [⟨"s1", "sao paulo"⟩],
  [⟨"o1", 5⟩]⟩

/-- An unreachable store (missing database file / disconnected). -/
def dbUnreachable : DB := ⟨false, [], [], [], [], [], []⟩

/-- A reachable store whose single priced item in category cat1 costs 0. -/
def dbZeroPrice : DB :=
  ⟨true, [], [⟨"p1", some "cat1"⟩], [⟨"o1", "p1", "s1", some 0⟩], [⟨"o1"⟩], [], []⟩

/-- A reachable store with item prices [10, NULL, 20] in category cat1. -/
def dbPrices : DB := ⟨true, [], [⟨"p1", some "cat1"⟩],
  [⟨"o1", "p1", "s1", some 10⟩, ⟨"o2", "p1", "s1", none⟩, ⟨"o3", "p1", "s1", some 20⟩],
  [⟨"o1"⟩, ⟨"o2"⟩, ⟨"o3"⟩], [], []⟩

/-- A reachable store with one product reviewed once with score 5. -/
def dbOneReview : DB :=
  ⟨true, [], [⟨"p1", some "cat1"⟩], [⟨"o1", "p1", "s1", some 10⟩], [⟨"o1"⟩],
    [⟨"s1", "sao paulo"⟩], [⟨"o1", 5⟩]⟩

/-- A reachable store holding a single product category row. -/
def dbOneCat : DB := ⟨true, [], [⟨"p1", some "moveis"⟩], [], [], [], []⟩

/-! ## Helper lemmas: strings -/

theorem charListPre_append (l m : List Char) : charListPre l (l ++ m) = true := by
  induction l with
  | nil => rfl
  | cons a as ih => simp [charListPre, ih]

theorem strStartsWith_append (p r : String) : strStartsWith (p ++ r) p = true := by
  unfold strStartsWith
  rw [String.data_append]
  exact charListPre_append p.data r.data

theorem string_ne_of_get (s t : String) (i : Nat) (h : s.data.get? i ≠ t.data.get? i) :
    s ≠ t :=
  fun he => h (he ▸ rfl)

theorem append_data_get (p r : String) (i : Nat) (c : Char) (h : p.data.get? i = some c) :
    (p ++ r).data.get? i = some c := by
  have hlt : i < p.data.length := by
    by_contra hge
    rw [List.get?_eq_none.mpr (le_of_not_lt hge)] at h
    cases h
  rw [String.data_append, List.get?_append hlt]
  exact h

/-! ## Helper lemmas: the sort orders -/

theorem charListLeB_total (l : List Char) :
    ∀ m : List Char, charListLeB l m = true ∨ charListLeB m l = true := by
  induction l with
  | nil => intro m; left; rfl
  | cons a as ih =>
    intro m
    cases m with
    | nil => right; rfl
    | cons b bs =>
      rcases lt_trichotomy a b with h | h | h
      · left; simp [charListLeB, h]
      · subst h
        rcases ih bs with h2 | h2
        · left; simpa [charListLeB] using h2
        · right; simpa [charListLeB] using h2
      · right; simp [charListLeB, h]

theorem charListLeB_trans (l : List Char) :
    ∀ m n : List Char, charListLeB l m = true → charListLeB m n = true →
      charListLeB l n = true := by
  induction l with
  | nil => intro m n _ _; rfl
  | cons a as ih =>
    intro m n h1 h2
    cases m with
    | nil => simp [charListLeB] at h1
    | cons b bs =>
      cases n with
      | nil => simp [charListLeB] at h2
      | cons c cs =>
        simp only [charListLeB] at h1 h2 ⊢
        by_cases hab : a < b
        · by_cases hbc : b < c
          · simp [lt_trans hab hbc]
          · by_cases hcb : c < b
            · rw [if_neg hbc, if_pos hcb] at h2; cases h2
            · have hbc2 : b = c := le_antisymm (not_lt.mp hcb) (not_lt.mp hbc)
              subst hbc2
              simp [hab]
        · by_cases hba : b < a
          · rw [if_neg hab, if_pos hba] at h1; cases h1
          · have hab2 : a = b := le_antisymm (not_lt.mp hba) (not_lt.mp hab)
            subst hab2
            rw [if_neg hab, if_neg hba] at h1
            by_cases hac : a < c
            · simp [hac]
            · by_cases hca : c < a
              · rw [if_neg hac, if_pos hca] at h2; cases h2
              · have hac2 : a = c := le_antisymm (not_lt.mp hca) (not_lt.mp hac)
                subst hac2
                rw [if_neg hac, if_neg hca] at h2
                rw [if_neg hac, if_neg hca]
                exact ih bs cs h1 h2

instance : IsTotal String strLeRel :=
  ⟨fun a b => charListLeB_total a.data b.data⟩

instance : IsTrans String strLeRel :=
  ⟨fun a b c h1 h2 => charListLeB_trans a.data b.data c.data h1 h2⟩

theorem bpRel_total (a b : ProductScore) : bpRel a b ∨ bpRel b a := by
  unfold bpRel
  rcases lt_trichotomy a.avg_score b.avg_score with h | h | h
  · right; left; exact h
  · rcases Nat.le_total a.total_reviews b.total_reviews with h2 | h2
    · right; right; exact ⟨h.symm, h2⟩
    · left; right; exact ⟨h, h2⟩
  · left; left; exact h

theorem bpRel_trans (a b c : ProductScore) (h1 : bpRel a b) (h2 : bpRel b c) : bpRel a c := by
  unfold bpRel at h1 h2 ⊢
  rcases h1 with h1 | ⟨h1e, h1n⟩
  · rcases h2 with h2 | ⟨h2e, h2n⟩
    · left; exact lt_trans h2 h1
    · left; rw [← h2e]; exact h1
  · rcases h2 with h2 | ⟨h2e, h2n⟩
    · left; rw [h1e]; exact h2
    · right; exact ⟨h1e.trans h2e, le_trans h2n h1n⟩

instance : IsTotal ProductScore bpRel := ⟨bpRel_total⟩

instance : IsTrans ProductScore bpRel := ⟨bpRel_trans⟩

/-! ## Helper lemmas: routing fall-through -/

theorem recStep_no_kw (db : DB) (q : String) (acc : List AgentCall)
    (h1 : containsStr q "produk terbaik" = false)
    (h2 : containsStr q "produk paling bagus" = false) :
    recStep db q acc = ("Pertanyaan belum didukung oleh sistem.", acc) := by
  simp [recStep, h1, h2]

theorem ragStep_no_kw (db : DB) (q : String) (acc : List AgentCall)
    (h : containsStr q "paling sering direview positif" = false) :
    ragStep db q acc = recStep db q acc := by
  simp [ragStep, h]

theorem sellerStep_no_kw (db : DB) (q : String) (acc : List AgentCall)
    (h1 : containsStr q "performa seller" = false)
    (h2 : containsStr q "bandingkan seller" = false) :
    sellerStep db q acc = ragStep db q acc := by
  simp [sellerStep, h1, h2]

theorem sellerStep_no_city (db : DB) (q : String) (acc : List AgentCall)
    (h1 : containsStr q "sao paulo" = false)
    (h2 : containsStr q "são paulo" = false)
    (h3 : containsStr q "rio" = false) :
    sellerStep db q acc = ragStep db q acc := by
  unfold sellerStep
  split
  · simp [h1, h2, h3]
  · rfl

theorem avgStep_no_kw (db : DB) (q : String) (acc : List AgentCall)
    (h1 : containsStr q "harga rata rata" = false)
    (h2 : containsStr q "rata-rata harga" = false) :
    avgStep db q acc = sellerStep db q acc := by
  simp [avgStep, h1, h2]

theorem avgStep_kw_no_label (db : DB) (q : String) (acc : List AgentCall)
    (hkw : (containsStr q "harga rata rata" || containsStr q "rata-rata harga") = true)
    (hfind : (get_category_translation_map db).find? (fun kv => containsStr q kv.1) = none) :
    avgStep db q acc = sellerStep db q (acc ++ [AgentCall.translationMap]) := by
  simp [avgStep, hkw, hfind]

theorem runQ_no_cat (db : DB) (q : String)
    (h : containsStr q "kategori apa" = false) :
    runQ db q = avgStep db q [] := by
  simp [runQ, h]

theorem runQ_fst_default (db : DB) (q : String)
    (hcat : containsStr q "kategori apa" = false)
    (havg : (containsStr q "harga rata rata" = false ∧
        containsStr q "rata-rata harga" = false) ∨
      (get_category_translation_map db).find? (fun kv => containsStr q kv.1) = none)
    (hsell : (containsStr q "performa seller" = false ∧
        containsStr q "bandingkan seller" = false) ∨
      (containsStr q "sao paulo" = false ∧ containsStr q "são paulo" = false ∧
        containsStr q "rio" = false))
    (hrag : containsStr q "paling sering direview positif" = false)
    (hrec1 : containsStr q "produk terbaik" = false)
    (hrec2 : containsStr q "produk paling bagus" = false) :
    (runQ db q).1 = "Pertanyaan belum didukung oleh sistem." := by
  have hseller : ∀ acc, (sellerStep db q acc).1 = "Pertanyaan belum didukung oleh sistem." := by
    intro acc
    have hrr : ∀ acc2 : List AgentCall,
        (ragStep db q acc2).1 = "Pertanyaan belum didukung oleh sistem." := by
      intro acc2
      rw [ragStep_no_kw db q acc2 hrag, recStep_no_kw db q acc2 hrec1 hrec2]
    rcases hsell with ⟨h4, h5⟩ | ⟨h6, h7, h8⟩
    · rw [sellerStep_no_kw db q acc h4 h5]; exact hrr acc
    · rw [sellerStep_no_city db q acc h6 h7 h8]; exact hrr acc
  rw [runQ_no_cat db q hcat]
  rcases havg with ⟨h2, h3⟩ | hfind
  · rw [avgStep_no_kw db q [] h2 h3]; exact hseller []
  · by_cases hkw : (containsStr q "harga rata rata" || containsStr q "rata-rata harga") = true
    · rw [avgStep_kw_no_label db q [] hkw hfind]; exact hseller _
    · have hkw2 := hkw
      rw [Bool.or_eq_true, not_or] at hkw2
      rw [avgStep_no_kw db q [] (Bool.eq_false_iff.mpr hkw2.1) (Bool.eq_false_iff.mpr hkw2.2)]
      exact hseller []

theorem sellerStep_sp (db : DB) (q : String) (acc : List AgentCall)
    (hkw : (containsStr q "performa seller" || containsStr q "bandingkan seller") = true)
    (hsp : (containsStr q "sao paulo" || containsStr q "são paulo") = true) :
    (sellerStep db q acc).2 = acc ++ [AgentCall.sellerPerf "sao paulo"] ∧
      isSaoPauloAnswerB (sellerStep db q acc).1 = true := by
  unfold sellerStep
  rw [hkw, hsp]
  simp only [if_true]
  cases SQLAgent.seller_performance db "sao paulo" with
  | none => exact ⟨rfl, by simp [isSaoPauloAnswerB]⟩
  | some r =>
    refine ⟨rfl, ?_⟩
    simp [isSaoPauloAnswerB, strStartsWith_append]

/-! ## Helper lemmas: list_categories -/

theorem list_categories_ne_nil (db : DB) : SQLAgent.list_categories db ≠ [] := by
  unfold SQLAgent.list_categories
  dsimp only
  split
  · simp [SQLAgent.fallbackCategories]
  · rename_i h
    exact fun he => by simp [he] at h

theorem list_categories_not_isEmpty (db : DB) :
    (SQLAgent.list_categories db).isEmpty = false := by
  have := list_categories_ne_nil db
  cases hc : SQLAgent.list_categories db with
  | nil => exact absurd hc this
  | cons a as => rfl

/-! ## Helper lemmas: no branch of the router produces the degraded message -/

theorem ne_degraded_of_get (s : String) (i : Nat) (c d : Char)
    (hc : s.data.get? i = some c)
    (hd : ("Kategori tersedia namun data detail tidak dimuat pada environment cloud." :
      String).data.get? i = some d)
    (hne : c ≠ d) :
    s ≠ "Kategori tersedia namun data detail tidak dimuat pada environment cloud." := by
  apply string_ne_of_get s _ i
  rw [hc, hd]
  intro h
  exact hne (Option.some.inj h)

theorem recStep_fst_ne_degraded (db : DB) (q : String) (acc : List AgentCall) :
    (recStep db q acc).1 ≠
      "Kategori tersedia namun data detail tidak dimuat pada environment cloud." := by
  unfold recStep
  dsimp only
  split
  · split
    · exact ne_degraded_of_get _ 0 'B' 'K' rfl rfl (by decide)
    · exact ne_degraded_of_get _ 0 'R' 'K'
        (append_data_get "Rekomendasi produk terbaik:\n- " _ 0 'R' rfl) rfl (by decide)
  · exact ne_degraded_of_get _ 0 'P' 'K' rfl rfl (by decide)

theorem ragStep_fst_ne_degraded (db : DB) (q : String) (acc : List AgentCall) :
    (ragStep db q acc).1 ≠
      "Kategori tersedia namun data detail tidak dimuat pada environment cloud." := by
  unfold ragStep
  dsimp only
  split
  · split
    · exact ne_degraded_of_get _ 0 'T' 'K' rfl rfl (by decide)
    · exact ne_degraded_of_get _ 0 'P' 'K'
        (append_data_get _ _ 0 'P' (append_data_get _ _ 0 'P' (append_data_get _ _ 0 'P'
          (append_data_get "Produk dengan review positif terbanyak adalah " _ 0 'P' rfl))))
        rfl (by decide)
  · exact recStep_fst_ne_degraded db q acc

theorem sellerStep_fst_ne_degraded (db : DB) (q : String) (acc : List AgentCall) :
    (sellerStep db q acc).1 ≠
      "Kategori tersedia namun data detail tidak dimuat pada environment cloud." := by
  unfold sellerStep
  dsimp only
  split
  · split
    · split
      · exact ne_degraded_of_get _ 0 'S' 'K'
          (append_data_get "Seller São Paulo: " _ 0 'S' rfl) rfl (by decide)
      · exact ne_degraded_of_get _ 0 'D' 'K' rfl rfl (by decide)
    · split
      · split
        · exact ne_degraded_of_get _ 0 'S' 'K'
            (append_data_get "Seller Rio de Janeiro: " _ 0 'S' rfl) rfl (by decide)
        · exact ne_degraded_of_get _ 0 'D' 'K' rfl rfl (by decide)
      · exact ragStep_fst_ne_degraded db q acc
  · exact ragStep_fst_ne_degraded db q acc

theorem avgStep_fst_ne_degraded (db : DB) (q : String) (acc : List AgentCall) :
    (avgStep db q acc).1 ≠
      "Kategori tersedia namun data detail tidak dimuat pada environment cloud." := by
  unfold avgStep
  dsimp only
  split
  · split
    · split
      · exact ne_degraded_of_get _ 0 'T' 'K'
          (append_data_get _ _ 0 'T'
            (append_data_get "Tidak ditemukan harga valid untuk kategori " _ 0 'T' rfl))
          rfl (by decide)
      · exact ne_degraded_of_get _ 0 'R' 'K'
          (append_data_get _ _ 0 'R' (append_data_get _ _ 0 'R' (append_data_get _ _ 0 'R'
            (append_data_get "Rata-rata harga produk kategori " _ 0 'R' rfl)))) rfl (by decide)
    · exact sellerStep_fst_ne_degraded db q _
  · exact sellerStep_fst_ne_degraded db q acc

theorem dbFetchAll_ok {α : Type} (db : DB) (rows : List α) (h : db.ok = true) :
    dbFetchAll db rows = rows := by
  unfold dbFetchAll dbOutcome
  rw [h]
  rfl

theorem dbFetchAll_bad {α : Type} (db : DB) (rows : List α) (h : db.ok = false) :
    dbFetchAll db rows = [] := by
  unfold dbFetchAll dbOutcome
  rw [h]
  rfl

theorem dbFetchOne_ok {α : Type} (db : DB) (rows : List α) (h : db.ok = true) :
    dbFetchOne db rows = rows.head? := by
  unfold dbFetchOne dbOutcome fetch_one
  rw [h]
  cases rows <;> rfl

theorem runQ_fst_ne_degraded (db : DB) (q : String) :
    (runQ db q).1 ≠
      "Kategori tersedia namun data detail tidak dimuat pada environment cloud." := by
  unfold runQ
  dsimp only
  split
  · rw [if_neg (by simp [list_categories_not_isEmpty db])]
    exact ne_degraded_of_get _ 9 'y' 't'
      (append_data_get "Kategori yang tersedia:\n- " _ 9 'y' rfl) rfl (by decide)
  · exact avgStep_fst_ne_degraded db q []

/-! ## Claim C1 -/

/-- C1: for every question whose lowercased form contains none of the
eight routing keywords, Orchestrator.run returns exactly the fixed
unsupported-question message, regardless of the store's contents. -/
theorem C1_unmatched_question_default (db : DB) (question : String)
    (h1 : containsStr (pyLower question) "kategori apa" = false)
    (h2 : containsStr (pyLower question) "harga rata rata" = false)
    (h3 : containsStr (pyLower question) "rata-rata harga" = false)
    (h4 : containsStr (pyLower question) "performa seller" = false)
    (h5 : containsStr (pyLower question) "bandingkan seller" = false)
    (h6 : containsStr (pyLower question) "paling sering direview positif" = false)
    (h7 : containsStr (pyLower question) "produk terbaik" = false)
    (h8 : containsStr (pyLower question) "produk paling bagus" = false) :
    Orchestrator.run db question = "Pertanyaan belum didukung oleh sistem." := by
  unfold Orchestrator.run Orchestrator.run_traced
  exact runQ_fst_default db (pyLower question) h1 (Or.inl ⟨h2, h3⟩) (Or.inl ⟨h4, h5⟩) h6 h7 h8

/-- Witness for C1: a concrete keyword-free question on a concrete store. -/
theorem C1_witness :
    containsStr (pyLower "Halo apa kabar dunia") "kategori apa" = false ∧
      containsStr (pyLower "Halo apa kabar dunia") "harga rata rata" = false ∧
      Orchestrator.run dbSample "Halo apa kabar dunia" =
        "Pertanyaan belum didukung oleh sistem." :=
  ⟨by decide, by decide,
    C1_unmatched_question_default dbSample "Halo apa kabar dunia" (by decide) (by decide)
      (by decide) (by decide) (by decide) (by decide) (by decide) (by decide)⟩

/-! ## Claim C7 -/

/-- C7: fetch_all is a total function — an execution failure is converted
to the empty row list rather than an exception reaching the caller — and
fetch_one equals the first row of fetch_all when that list is non-empty,
and absence otherwise (that is, its optional head). -/
theorem C7_fetch_semantics (α : Type) (msg : String) (o : QueryOutcome α) :
    fetch_all (QueryOutcome.failure msg : QueryOutcome α) = [] ∧
      fetch_one o = (fetch_all o).head? := by
  constructor
  · rfl
  · unfold fetch_one
    cases fetch_all o <;> rfl

/-! ## Claim C10 -/

/-- C10: the degraded-mode branch of the category rule is dead code:
list_categories never returns an empty list (the fallback replaces an
empty result), so Orchestrator.run never returns the degraded message. -/
theorem C10_degraded_branch_dead :
    (∀ db : DB, SQLAgent.list_categories db ≠ []) ∧
      ∀ (db : DB) (question : String),
        Orchestrator.run db question ≠
          "Kategori tersedia namun data detail tidak dimuat pada environment cloud." := by
  refine ⟨list_categories_ne_nil, ?_⟩
  intro db question
  unfold Orchestrator.run Orchestrator.run_traced
  exact runQ_fst_ne_degraded db (pyLower question)

/-! ## Claim C9 -/

theorem charEquivB_fold (c d : Char) (h : charEquivB c d = true) :
    underscoreChar (pyLowerChar c) = underscoreChar (pyLowerChar d) := by
  simp only [charEquivB, Bool.or_eq_true, Bool.and_eq_true, beq_iff_eq] at h
  rcases h with (h | ⟨h1, h2⟩) | ⟨h1, h2⟩
  · rw [h]
  · subst h1; subst h2; rfl
  · subst h1; subst h2; rfl

theorem coreEquivB_map (l : List Char) :
    ∀ m : List Char, coreEquivB l m = true →
      (l.map pyLowerChar).map underscoreChar = (m.map pyLowerChar).map underscoreChar := by
  induction l with
  | nil =>
    intro m h
    cases m with
    | nil => rfl
    | cons b bs => simp [coreEquivB] at h
  | cons a as ih =>
    intro m h
    cases m with
    | nil => simp [coreEquivB] at h
    | cons b bs =>
      rw [coreEquivB, Bool.and_eq_true] at h
      simp only [List.map_cons]
      rw [charEquivB_fold a b h.1, ih bs h.2]

/-- C9 (amended): normalize lowercases, strips, and replaces spaces by
underscores; two labels whose stripped character sequences agree
pointwise up to letter case and space/underscore interchange normalize
to the same string.  (Unstripped labels may disagree: stripping runs
before underscore replacement, see the counterexample.) -/
theorem C9_normalize_equiv (s t : String)
    (h : coreEquivB (pyStrip s.data) (pyStrip t.data) = true) :
    normalize_category s = normalize_category t := by
  unfold normalize_category
  exact congrArg String.mk (coreEquivB_map _ _ h)

/-- C9 counterexample: "a " and "a_" differ only by one space/underscore
interchange, yet normalize sends them to "a" and "a_" respectively,
because trimming runs before the space-to-underscore replacement. -/
theorem C9_counterexample :
    coreEquivB "a ".data "a_".data = true ∧
      normalize_category "a " ≠ normalize_category "a_" := by
  exact ⟨by decide, by decide⟩

/-- Witness for C9: the spec's own instance. -/
theorem C9_witness :
    normalize_category "Home Beauty" = normalize_category "home_beauty" ∧
      normalize_category "home_beauty" = "home_beauty" :=
  ⟨C9_normalize_equiv "Home Beauty" "home_beauty" (by decide), by decide⟩

/-! ## Claim C2 -/

/-- C2 counterexample: the question contains the average-price phrase and
no translation label matches (the map is empty), yet run does not return
the final default message — it falls through to the seller rule, which
answers about São Paulo. -/
theorem C2_counterexample :
    get_category_translation_map dbUnreachable = [] ∧
      containsStr (pyLower "Harga rata rata performa seller sao paulo")
        "harga rata rata" = true ∧
      Orchestrator.run dbUnreachable "Harga rata rata performa seller sao paulo" ≠
        "Pertanyaan belum didukung oleh sistem." :=
  ⟨rfl, by decide, by decide⟩

/-- C2 (amended): when the average-price phrase matches but no normalized
English label of the translation map occurs in the question, evaluation
falls through to the remaining rules; the final default message is
returned exactly when none of the later rules (category rule aside, which
precedes) produces an answer. -/
theorem C2_avg_no_label_falls_through (db : DB) (question : String)
    (h1 : containsStr (pyLower question) "harga rata rata" = true ∨
      containsStr (pyLower question) "rata-rata harga" = true)
    (h2 : ∀ kv ∈ get_category_translation_map db,
      containsStr (pyLower question) kv.1 = false)
    (h3 : containsStr (pyLower question) "kategori apa" = false)
    (h4 : (containsStr (pyLower question) "performa seller" = false ∧
        containsStr (pyLower question) "bandingkan seller" = false) ∨
      (containsStr (pyLower question) "sao paulo" = false ∧
        containsStr (pyLower question) "são paulo" = false ∧
        containsStr (pyLower question) "rio" = false))
    (h5 : containsStr (pyLower question) "paling sering direview positif" = false)
    (h6 : containsStr (pyLower question) "produk terbaik" = false)
    (h7 : containsStr (pyLower question) "produk paling bagus" = false) :
    Orchestrator.run db question = "Pertanyaan belum didukung oleh sistem." := by
  unfold Orchestrator.run Orchestrator.run_traced
  apply runQ_fst_default db (pyLower question) h3 _ h4 h5 h6 h7
  right
  rw [List.find?_eq_none]
  intro kv hkv
  simp [h2 kv hkv]

/-- Witness for C2: an average-price question with no other keywords on a
store with an empty translation map. -/
theorem C2_witness :
    containsStr (pyLower "Berapa harga rata rata barang") "harga rata rata" = true ∧
      Orchestrator.run dbUnreachable "Berapa harga rata rata barang" =
        "Pertanyaan belum didukung oleh sistem." :=
  ⟨by decide,
    C2_avg_no_label_falls_through dbUnreachable "Berapa harga rata rata barang"
      (Or.inl (by decide))
      (by
        intro kv hkv
        have hm : get_category_translation_map dbUnreachable = [] := rfl
        rw [hm] at hkv
        cases hkv)
      (by decide) (Or.inl ⟨by decide, by decide⟩) (by decide) (by decide) (by decide)⟩

/-! ## Claim C4 -/

/-- C4 counterexample: with the store unreachable the translation map is
empty, but an average-price question is then answered with the fixed
unsupported-question message, not with a "not found" report (all per-
category not-found reports start with "Tidak ditemukan"). -/
theorem C4_counterexample :
    get_category_translation_map dbUnreachable = [] ∧
      Orchestrator.run dbUnreachable "Berapa harga rata rata produknya" =
        "Pertanyaan belum didukung oleh sistem." ∧
      strStartsWith (Orchestrator.run dbUnreachable "Berapa harga rata rata produknya")
        "Tidak ditemukan" = false :=
  ⟨rfl, by decide, by decide⟩

/-- C4 (amended): when the store is unreachable,
get_category_translation_map yields the empty mapping, and a subsequent
average-price question (with no other rule keyword matching) is answered
with the fixed unsupported-question message — no per-category "not
found" report can be produced since no label can match. -/
theorem C4_unreachable_store (db : DB) (question : String)
    (hok : db.ok = false)
    (h1 : containsStr (pyLower question) "harga rata rata" = true ∨
      containsStr (pyLower question) "rata-rata harga" = true)
    (h3 : containsStr (pyLower question) "kategori apa" = false)
    (h4 : (containsStr (pyLower question) "performa seller" = false ∧
        containsStr (pyLower question) "bandingkan seller" = false) ∨
      (containsStr (pyLower question) "sao paulo" = false ∧
        containsStr (pyLower question) "são paulo" = false ∧
        containsStr (pyLower question) "rio" = false))
    (h5 : containsStr (pyLower question) "paling sering direview positif" = false)
    (h6 : containsStr (pyLower question) "produk terbaik" = false)
    (h7 : containsStr (pyLower question) "produk paling bagus" = false) :
    get_category_translation_map db = [] ∧
      Orchestrator.run db question = "Pertanyaan belum didukung oleh sistem." := by
  have hmap : get_category_translation_map db = [] := by
    unfold get_category_translation_map
    rw [dbFetchAll_bad db _ hok]
    rfl
  refine ⟨hmap, ?_⟩
  unfold Orchestrator.run Orchestrator.run_traced
  apply runQ_fst_default db (pyLower question) h3 _ h4 h5 h6 h7
  right
  rw [hmap]
  rfl

/-- Witness for C4 at a concrete unreachable store. -/
theorem C4_witness :
    DB.ok dbUnreachable = false ∧
      get_category_translation_map dbUnreachable = [] ∧
      Orchestrator.run dbUnreachable "rata-rata harga semua produk" =
        "Pertanyaan belum didukung oleh sistem." := by
  have H := C4_unreachable_store dbUnreachable "rata-rata harga semua produk" rfl
    (Or.inr (by decide)) (by decide) (Or.inl ⟨by decide, by decide⟩)
    (by decide) (by decide) (by decide)
  exact ⟨rfl, H.1, H.2⟩

/-! ## Claim C6 -/

/-- C6 counterexample: a question meeting all of the claim's conditions
(seller keyword, both cities mentioned) whose answer nevertheless does
not concern São Paulo, because the question also matches the earlier
category rule, which wins. -/
theorem C6_counterexample :
    containsStr (pyLower "Kategori apa; bandingkan performa seller sao paulo dan rio")
      "performa seller" = true ∧
      containsStr (pyLower "Kategori apa; bandingkan performa seller sao paulo dan rio")
        "sao paulo" = true ∧
      containsStr (pyLower "Kategori apa; bandingkan performa seller sao paulo dan rio")
        "rio" = true ∧
      isSaoPauloAnswerB
        (Orchestrator.run dbUnreachable
          "Kategori apa; bandingkan performa seller sao paulo dan rio") = false :=
  ⟨by decide, by decide, by decide, by decide⟩

/-- C6 (amended): when the seller rule is actually reached (no earlier
rule answered: the category keyword is absent, and the average-price rule
does not return) and the question mentions São Paulo — even when it also
mentions Rio — the São Paulo check wins: the only seller query issued is
for "sao paulo", the Rio query is never issued, and the answer is one of
the two São Paulo messages. -/
theorem C6_sao_paulo_first (db : DB) (question : String)
    (hkw : containsStr (pyLower question) "performa seller" = true ∨
      containsStr (pyLower question) "bandingkan seller" = true)
    (hsp : containsStr (pyLower question) "sao paulo" = true ∨
      containsStr (pyLower question) "são paulo" = true)
    (hrio : containsStr (pyLower question) "rio" = true)
    (hcat : containsStr (pyLower question) "kategori apa" = false)
    (havg : (containsStr (pyLower question) "harga rata rata" = false ∧
        containsStr (pyLower question) "rata-rata harga" = false) ∨
      (get_category_translation_map db).find?
        (fun kv => containsStr (pyLower question) kv.1) = none) :
    (∀ c, AgentCall.sellerPerf c ∈ (Orchestrator.run_traced db question).2 →
        c = "sao paulo") ∧
      AgentCall.sellerPerf "rio de janeiro" ∉ (Orchestrator.run_traced db question).2 ∧
      isSaoPauloAnswerB (Orchestrator.run db question) = true := by
  have hkwb : (containsStr (pyLower question) "performa seller" ||
      containsStr (pyLower question) "bandingkan seller") = true := by
    rcases hkw with h | h <;> simp [h]
  have hspb : (containsStr (pyLower question) "sao paulo" ||
      containsStr (pyLower question) "são paulo") = true := by
    rcases hsp with h | h <;> simp [h]
  have hred : ∃ acc : List AgentCall,
      (∀ c : String, AgentCall.sellerPerf c ∉ acc) ∧
        Orchestrator.run_traced db question = sellerStep db (pyLower question) acc := by
    unfold Orchestrator.run_traced
    rw [runQ_no_cat db _ hcat]
    rcases havg with ⟨h2, h3⟩ | hfind
    · refine ⟨[], fun c => List.not_mem_nil _, ?_⟩
      rw [avgStep_no_kw db _ [] h2 h3]
    · by_cases hkw2 : (containsStr (pyLower question) "harga rata rata" ||
        containsStr (pyLower question) "rata-rata harga") = true
      · refine ⟨[AgentCall.translationMap], ?_, ?_⟩
        · intro c h
          rw [List.mem_singleton] at h
          cases h
        · rw [avgStep_kw_no_label db _ [] hkw2 hfind]
          simp
      · rw [Bool.or_eq_true, not_or] at hkw2
        refine ⟨[], fun c => List.not_mem_nil _, ?_⟩
        rw [avgStep_no_kw db _ [] (Bool.eq_false_iff.mpr hkw2.1)
          (Bool.eq_false_iff.mpr hkw2.2)]
  rcases hred with ⟨acc, haccfree, heq⟩
  have hsp2 := sellerStep_sp db (pyLower question) acc hkwb hspb
  unfold Orchestrator.run
  rw [heq]
  refine ⟨?_, ?_, hsp2.2⟩
  · intro c hc
    rw [hsp2.1] at hc
    rcases List.mem_append.mp hc with h | h
    · exact absurd h (haccfree c)
    · rw [List.mem_singleton] at h
      exact AgentCall.sellerPerf.inj h
  · intro hc
    rw [hsp2.1] at hc
    rcases List.mem_append.mp hc with h | h
    · exact haccfree _ h
    · rw [List.mem_singleton] at h
      exact (by decide : AgentCall.sellerPerf "rio de janeiro" ≠
        AgentCall.sellerPerf "sao paulo") h

/-- Witness for C6 at a concrete store and question. -/
theorem C6_witness :
    isSaoPauloAnswerB
        (Orchestrator.run dbUnreachable "bandingkan seller sao paulo atau rio") = true ∧
      AgentCall.sellerPerf "rio de janeiro" ∉
        (Orchestrator.run_traced dbUnreachable "bandingkan seller sao paulo atau rio").2 := by
  have H := C6_sao_paulo_first dbUnreachable "bandingkan seller sao paulo atau rio"
    (Or.inr (by decide)) (Or.inl (by decide)) (by decide) (by decide)
    (Or.inl ⟨by decide, by decide⟩)
  exact ⟨H.2.2, H.2.1⟩

/-! ## Claim C3 -/

/-- C3 counterexample: a category whose only matching priced item costs
0 — matching priced items exist, yet the agent reports absence, because
the source's Python truthiness test treats the 0.0 average as false. -/
theorem C3_counterexample :
    avgPricePrices dbZeroPrice "cat1" ≠ [] ∧
      SQLAgent.average_price_by_category dbZeroPrice "cat1" = none := by
  have hl : avgPricePrices dbZeroPrice "cat1" = [0] := rfl
  constructor
  · rw [hl]; simp
  · unfold SQLAgent.average_price_by_category
    rw [dbFetchOne_ok dbZeroPrice _ rfl, hl]
    norm_num [sqlAvg]

/-- C3 (amended): with the store reachable, average_price_by_category
returns the average of the non-null prices of items joined to products of
the category whenever that average is non-zero, and returns absence
exactly when no matching priced item exists or the average equals zero
(Python truthiness of 0.0). -/
theorem C3_average_price_semantics (db : DB) (category : String) (hok : db.ok = true) :
    (avgPricePrices db category ≠ [] →
      (avgPricePrices db category).sum / ((avgPricePrices db category).length : ℚ) ≠ 0 →
      SQLAgent.average_price_by_category db category =
        some ((avgPricePrices db category).sum /
          ((avgPricePrices db category).length : ℚ))) ∧
    (SQLAgent.average_price_by_category db category = none ↔
      avgPricePrices db category = [] ∨
        (avgPricePrices db category).sum / ((avgPricePrices db category).length : ℚ) = 0) := by
  have h1 : SQLAgent.average_price_by_category db category =
      match sqlAvg (avgPricePrices db category) with
      | none => none
      | some a => if a = 0 then none else some a := by
    unfold SQLAgent.average_price_by_category
    rw [dbFetchOne_ok db _ hok]
    rfl
  rw [h1]
  unfold sqlAvg
  by_cases he : (avgPricePrices db category).isEmpty = true
  · have hnil : avgPricePrices db category = [] := by
      cases hc : avgPricePrices db category with
      | nil => rfl
      | cons a as => rw [hc] at he; cases he
    rw [if_pos he]
    constructor
    · intro hl; exact absurd hnil hl
    · simp [hnil]
  · have hnnil : avgPricePrices db category ≠ [] := by
      intro h2
      rw [h2] at he
      exact he rfl
    rw [if_neg he]
    by_cases hz : (avgPricePrices db category).sum /
        ((avgPricePrices db category).length : ℚ) = 0
    · constructor
      · intro _ hnz; exact absurd hz hnz
      · simp [hz]
    · constructor
      · intro _ _; simp [hz]
      · constructor
        · intro h2; simp [hz] at h2
        · intro h2
          rcases h2 with h2 | h2
          · exact absurd h2 hnnil
          · exact absurd h2 hz

/-- Witness for C3: prices [10, NULL, 20] in the category average to 15,
with the NULL price excluded. -/
theorem C3_witness :
    DB.ok dbPrices = true ∧ avgPricePrices dbPrices "cat1" = [10, 20] ∧
      SQLAgent.average_price_by_category dbPrices "cat1" = some 15 := by
  have hl : avgPricePrices dbPrices "cat1" = [10, 20] := rfl
  have H := (C3_average_price_semantics dbPrices "cat1" rfl).1
    (by rw [hl]; simp) (by rw [hl]; norm_num)
  refine ⟨rfl, hl, ?_⟩
  rw [H, hl]
  norm_num

/-! ## Claim C5 -/

/-- C5 counterexample: when the store yields no category rows the result
is the literal fallback list, and that list is not sorted ascending
("furniture" precedes "electronics"). -/
theorem C5_counterexample :
    SQLAgent.list_categories dbUnreachable = SQLAgent.fallbackCategories ∧
      ¬ List.Sorted strLeRel (SQLAgent.list_categories dbUnreachable) := by
  have h : SQLAgent.list_categories dbUnreachable = SQLAgent.fallbackCategories := rfl
  refine ⟨h, ?_⟩
  rw [h]
  unfold SQLAgent.fallbackCategories
  intro hs
  have h2 := (List.sorted_cons.mp hs).1 "electronics" (by simp)
  exact absurd h2 (by decide)

/-- C5 (amended): list_categories is never empty and always
duplicate-free; when the store yields at least one category row the
result is sorted ascending; when the store yields no rows (including
store failure) the result is the literal 9-element fallback list, which
is not sorted. -/
theorem C5_list_categories_spec (db : DB) :
    (dbFetchAll db (db.products.filterMap fun p => p.product_category_name) = [] →
      SQLAgent.list_categories db = SQLAgent.fallbackCategories) ∧
    (dbFetchAll db (db.products.filterMap fun p => p.product_category_name) ≠ [] →
      List.Sorted strLeRel (SQLAgent.list_categories db)) ∧
    (SQLAgent.list_categories db).Nodup ∧
    SQLAgent.list_categories db ≠ [] := by
  refine ⟨?_, ?_, ?_, list_categories_ne_nil db⟩
  · intro hnil
    unfold SQLAgent.list_categories
    rw [hnil]
    rfl
  · intro hnnil
    unfold SQLAgent.list_categories
    dsimp only
    rw [if_neg ?hne]
    case hne =>
      intro hemp
      rw [List.isEmpty_iff] at hemp
      have hperm := List.perm_insertionSort strLeRel
        (dbFetchAll db (db.products.filterMap fun p => p.product_category_name)).dedup
      rw [hemp] at hperm
      exact hnnil ((List.dedup_eq_nil _).mp hperm.symm.eq_nil)
    exact List.sorted_insertionSort strLeRel _
  · unfold SQLAgent.list_categories
    dsimp only
    split
    · decide
    · exact ((List.perm_insertionSort strLeRel _).symm).nodup (List.nodup_dedup _)

/-- Witness for C5: the fallback case on an unreachable store, and the
sorted case on a store with one category row. -/
theorem C5_witness :
    SQLAgent.list_categories dbUnreachable = SQLAgent.fallbackCategories ∧
      List.Sorted strLeRel (SQLAgent.list_categories dbOneCat) ∧
      SQLAgent.list_categories dbOneCat ≠ [] := by
  refine ⟨(C5_list_categories_spec dbUnreachable).1 rfl, ?_, ?_⟩
  · exact (C5_list_categories_spec dbOneCat).2.1 (by decide)
  · exact (C5_list_categories_spec dbOneCat).2.2.2

/-! ## Claim C8 -/

/-- C8: best_products with the default limit 5 returns at most 5 rows;
every returned row has average review score ≥ 4; and the rows are ordered
non-increasingly by average score, ties non-increasingly by total review
count. -/
theorem C8_best_products_spec (db : DB) :
    (RecommendationAgent.best_products db 5).length ≤ 5 ∧
      (∀ r ∈ RecommendationAgent.best_products db 5, 4 ≤ r.avg_score) ∧
      List.Pairwise (fun a b => b.avg_score ≤ a.avg_score ∧
          (a.avg_score = b.avg_score → b.total_reviews ≤ a.total_reviews))
        (RecommendationAgent.best_products db 5) := by
  unfold RecommendationAgent.best_products
  cases hok : db.ok with
  | false =>
    rw [dbFetchAll_bad db _ hok]
    exact ⟨by simp, by simp, by simp⟩
  | true =>
    rw [dbFetchAll_ok db _ hok]
    refine ⟨List.length_take_le 5 _, ?_, ?_⟩
    · intro r hr
      have hr2 := List.take_subset 5 _ hr
      have hr3 := (List.perm_insertionSort bpRel _).subset hr2
      exact of_decide_eq_true (List.mem_filter.mp hr3).2
    · have hs := List.sorted_insertionSort bpRel
        ((groupScores db).filter fun g => decide (4 ≤ g.avg_score))
      have hp := List.Pairwise.sublist (List.take_sublist 5 _) hs
      refine hp.imp ?_
      intro a b hab
      rcases hab with h | ⟨he, hn⟩
      · exact ⟨le_of_lt h, fun he2 => absurd h (by rw [he2]; exact lt_irrefl _)⟩
      · exact ⟨le_of_eq he.symm, fun _ => hn⟩

/-- Witness for C8 on a store with one reviewed product. -/
theorem C8_witness :
    (RecommendationAgent.best_products dbOneReview 5).length ≤ 5 ∧
      4 ≤ (ProductScore.mk "p1" 1 5).avg_score := by
  have H := C8_best_products_spec dbOneReview
  have hg : groupScores dbOneReview = [⟨"p1", 1, 5⟩] := by
    unfold groupScores reviewRows
    simp [dbOneReview, List.filterMap_cons, List.filterMap_nil]
  have hbp : RecommendationAgent.best_products dbOneReview 5 = [⟨"p1", 1, 5⟩] := by
    unfold RecommendationAgent.best_products
    rw [dbFetchAll_ok dbOneReview _ rfl, hg]
    norm_num [List.filter, List.insertionSort, List.orderedInsert]
  exact ⟨H.1, H.2.1 ⟨"p1", 1, 5⟩ (by rw [hbp]; simp)⟩
